import Mathlib

/-!
Verification of the loan-approval decision pipeline (`loanagent.py`,
`loan_runner.py`) via a shallow embedding.

External collaborators are modelled as explicit function parameters:
  * the filesystem / PDF reader behind `PyPDFLoader` is
    `fs : String → Nat → Option (List String)` — for a path, the outcome of
    the n-th load attempt (`none` = the load raised, `some pages` = the list
    of page texts);
  * the chat model behind `self.llm.invoke` is
    `llm : PromptMessages → Except String String` (`error` = the call raised,
    carrying `str(e)`; `ok` = the response `.content` text);
  * the JSON-extraction half of `PydanticOutputParser.parse`
    (langchain's markdown/JSON decoding, a library routine) is
    `jsonDecode : String → Except String JValue`; the schema-validation half
    is embedded below from the repository's `LoanDecision` model;
  * `get_format_instructions()` is a fixed library-generated string, passed
    in as the `format_instructions` argument.

Python `float` fields are modelled as `Rat`.  Every concrete value exercised
here is an integer-valued double, on which IEEE-754 arithmetic and `Rat`
arithmetic agree exactly, and on which Python `repr` prints `"<int>.0"`.
-/

/-- A raw value in the applicant mapping handed to
`process_loan_application` (a Python dict value). -/
inductive PyVal where
  | str (s : String)
  | float (q : Rat)
  | int (n : Int)
  | bool (b : Bool)
deriving DecidableEq

/-- The raw applicant mapping (`application_data : Dict[str, Any]`). -/
abbrev AppData := List (String × PyVal)

/-- `loanagent.py` lines 17-25: the `LoanApplication` pydantic model. -/
structure LoanApplication where
  applicantId : String
  requestedAmount : Rat
  annualIncome : Rat
  monthlyDebt : Rat
  creditScore : Int
  employmentMonths : Int
  isFirstTimeBuyer : Bool
  isSelfEmployed : Bool
deriving DecidableEq

/-- `loanagent.py` lines 27-31: the `LoanDecision` pydantic model.  Note
that every field is declared with a bare type (`str`, `List[str]`): the
`Field(description=...)` annotations add prompt documentation only, so the
model imposes no enum constraint on `decision` or `riskLevel`. -/
structure LoanDecision where
  decision : String
  reasoning : String
  riskLevel : String
  appliedRules : List String
deriving DecidableEq

/-- The record returned by `process_loan_application`: both `return` sites
(lines 99-104 / 125-130 and 134-139) build a dict with exactly the four keys
`decision`, `reasoning`, `riskLevel`, `appliedRules`, which this structure
captures as its exactly four fields. -/
structure DecisionResult where
  decision : String
  reasoning : String
  riskLevel : String
  appliedRules : List String
deriving DecidableEq

/-- A decoded JSON value, as produced by the JSON-decoding step inside
`PydanticOutputParser.parse` before schema validation. -/
inductive JValue where
  | jstr (s : String)
  | jnum (q : Rat)
  | jbool (b : Bool)
  | jnull
  | jarr (xs : List JValue)
  | jobj (fs : List (String × JValue))

/-- Field lookup in the applicant mapping; a missing key is a pydantic
`ValidationError` ("field required"). -/
def getField (data : AppData) (k : String) : Except String PyVal :=
  match data.find? (fun p => p.1 == k) with
  | some p => Except.ok p.2
  | none => Except.error (k ++ ": field required")

/-- Pydantic validation of a `str` field. -/
def asStr (k : String) : PyVal → Except String String
  | PyVal.str s => Except.ok s
  | _ => Except.error (k ++ ": str type expected")

/-- Pydantic validation of a `float` field (an `int` value coerces). -/
def asFloat (k : String) : PyVal → Except String Rat
  | PyVal.float q => Except.ok q
  | PyVal.int n => Except.ok (n : Rat)
  | _ => Except.error (k ++ ": float type expected")

/-- Pydantic validation of an `int` field. -/
def asInt (k : String) : PyVal → Except String Int
  | PyVal.int n => Except.ok n
  | _ => Except.error (k ++ ": int type expected")

/-- Pydantic validation of a `bool` field. -/
def asBool (k : String) : PyVal → Except String Bool
  | PyVal.bool b => Except.ok b
  | _ => Except.error (k ++ ": bool type expected")

/-- `LoanApplication(**application_data)` (`loanagent.py` line 107):
pydantic constructs the model, requiring every field to be present with a
value of the declared type, and raising `ValidationError` otherwise (the
embedding reports the first offending field).  The model declares no range
constraint on any field, so e.g. `annualIncome = 0` is accepted. -/
def LoanApplication.validate (data : AppData) : Except String LoanApplication := do
  let applicantId ← getField data "applicantId" >>= asStr "applicantId"
  let requestedAmount ← getField data "requestedAmount" >>= asFloat "requestedAmount"
  let annualIncome ← getField data "annualIncome" >>= asFloat "annualIncome"
  let monthlyDebt ← getField data "monthlyDebt" >>= asFloat "monthlyDebt"
  let creditScore ← getField data "creditScore" >>= asInt "creditScore"
  let employmentMonths ← getField data "employmentMonths" >>= asInt "employmentMonths"
  let isFirstTimeBuyer ← getField data "isFirstTimeBuyer" >>= asBool "isFirstTimeBuyer"
  let isSelfEmployed ← getField data "isSelfEmployed" >>= asBool "isSelfEmployed"
  Except.ok { applicantId, requestedAmount, annualIncome, monthlyDebt,
              creditScore, employmentMonths, isFirstTimeBuyer, isSelfEmployed }

/-- Field lookup in a decoded JSON object; a missing key is a pydantic
`ValidationError` surfaced by the output parser. -/
def jLookup (fs : List (String × JValue)) (k : String) : Except String JValue :=
  match fs.find? (fun p => p.1 == k) with
  | some p => Except.ok p.2
  | none => Except.error (k ++ ": field required")

/-- Schema validation of a `str` field of `LoanDecision`. -/
def jStr (k : String) : JValue → Except String String
  | JValue.jstr s => Except.ok s
  | _ => Except.error (k ++ ": str type expected")

/-- Schema validation of the elements of a `List[str]` field. -/
def jStrList (k : String) : List JValue → Except String (List String)
  | [] => Except.ok []
  | JValue.jstr s :: rest =>
      match jStrList k rest with
      | Except.ok tail => Except.ok (s :: tail)
      | Except.error e => Except.error e
  | _ :: _ => Except.error (k ++ ": str type expected")

/-- Schema validation of a `List[str]` field of `LoanDecision`. -/
def jStrArr (k : String) : JValue → Except String (List String)
  | JValue.jarr xs => jStrList k xs
  | _ => Except.error (k ++ ": list type expected")

/-- `LoanDecision.parse_obj` as invoked by `PydanticOutputParser.parse` on
the decoded JSON: each declared field must be present with the declared
type.  `decision` and `riskLevel` are declared `str`, so any string value
validates — the `Field` descriptions are not constraints. -/
def LoanDecision.parseObj : JValue → Except String LoanDecision
  | JValue.jobj fs => do
      let decision ← jLookup fs "decision" >>= jStr "decision"
      let reasoning ← jLookup fs "reasoning" >>= jStr "reasoning"
      let riskLevel ← jLookup fs "riskLevel" >>= jStr "riskLevel"
      let appliedRules ← jLookup fs "appliedRules" >>= jStrArr "appliedRules"
      Except.ok { decision, reasoning, riskLevel, appliedRules }
  | _ => Except.error "value is not a valid dict"

/-- `self.output_parser.parse(llm_response.content)` (`loanagent.py`
line 122): decode the response text as JSON (library step, passed in as
`jsonDecode`), then validate against the `LoanDecision` schema. -/
def output_parser_parse (jsonDecode : String → Except String JValue)
    (text : String) : Except String LoanDecision := do
  let v ← jsonDecode text
  LoanDecision.parseObj v

/-- Hexadecimal digit, for JSON string escapes. -/
def hexDigit (n : Nat) : Char :=
  if n < 10 then Char.ofNat (48 + n) else Char.ofNat (87 + n)

/-- `json.dumps` escaping of one character (default `ensure_ascii=True`;
characters beyond the basic multilingual plane, which would need surrogate
pairs, do not occur in any value considered here). -/
def jsonEscapeChar (c : Char) : String :=
  if c = '"' then "\\\""
  else if c = '\\' then "\\\\"
  else if c = '\n' then "\\n"
  else if c = '\t' then "\\t"
  else if c = '\r' then "\\r"
  else if c.toNat = 8 then "\\b"
  else if c.toNat = 12 then "\\f"
  else if c.toNat < 32 || c.toNat ≥ 128 then
    "\\u" ++ String.mk [hexDigit (c.toNat / 4096 % 16), hexDigit (c.toNat / 256 % 16),
                        hexDigit (c.toNat / 16 % 16), hexDigit (c.toNat % 16)]
  else String.singleton c

/-- `json.dumps` escaping of a string value. -/
def jsonEscape (s : String) : String :=
  String.join (s.toList.map jsonEscapeChar)

/-- Python `repr` of a float, restricted to the exactly-representable
rationals modelled here.  On integer-valued doubles — the only float values
any scenario in this development uses — Python prints `<int>.0`, which the
first branch reproduces exactly; the second branch (never exercised) stands
in for the shortest-round-trip repr of non-integral doubles. -/
def pyFloatRepr (q : Rat) : String :=
  if q.den = 1 then toString q.num ++ ".0"
  else toString q.num ++ "/" ++ toString q.den

/-- JSON rendering of a Python bool. -/
def pyBoolJson : Bool → String
  | true => "true"
  | false => "false"

/-- `json.dumps(application.dict(), indent=2)` (`loanagent.py` line 114):
the eight fields in model declaration order, two-space indent. -/
def json_dumps_application (a : LoanApplication) : String :=
  "\x7b\n  \"applicantId\": \"" ++ jsonEscape a.applicantId
    ++ "\",\n  \"requestedAmount\": " ++ pyFloatRepr a.requestedAmount
    ++ ",\n  \"annualIncome\": " ++ pyFloatRepr a.annualIncome
    ++ ",\n  \"monthlyDebt\": " ++ pyFloatRepr a.monthlyDebt
    ++ ",\n  \"creditScore\": " ++ toString a.creditScore
    ++ ",\n  \"employmentMonths\": " ++ toString a.employmentMonths
    ++ ",\n  \"isFirstTimeBuyer\": " ++ pyBoolJson a.isFirstTimeBuyer
    ++ ",\n  \"isSelfEmployed\": " ++ pyBoolJson a.isSelfEmployed
    ++ "\n\x7d"

/-- The two chat messages produced by `main_prompt.format_messages`. -/
structure PromptMessages where
  system : String
  human : String
deriving DecidableEq

/-- The system-role template of `loanagent.py` lines 52-69, with
`policy_text` and `format_instructions` substituted. -/
def systemMessage (policy_text format_instructions : String) : String :=
  "You are a loan approval expert. You will receive a policy document and loan application data.\n\n            Your task:\n            1. Extract loan approval rules from the policy document\n            2. Apply those rules to the loan application\n            3. Make a decision with detailed reasoning\n\n            Policy Document:\n            "
    ++ policy_text
    ++ "\n\n            "
    ++ format_instructions
    ++ "\n\n            Guidelines for decision making:\n            1. Calculate debt-to-income ratio: (monthly_debt * 12) / annual_income\n            2. Determine risk level based on credit score ranges in the policy\n            3. Apply appropriate DTI limits for the risk level\n            4. Check special cases (first-time buyer, self-employed)\n            5. Provide clear reasoning for your decision"

/-- The human-role template of `loanagent.py` lines 70-73, with
`application_data` substituted. -/
def humanMessage (application_data : String) : String :=
  "Loan Application Data:\n            "
    ++ application_data
    ++ "\n\n            Please analyze the policy and make a loan decision."

/-- `self.main_prompt.format_messages(...)` (`loanagent.py` lines 112-116):
pure template substitution into the two messages. -/
def main_prompt_format_messages (policy_text application_data format_instructions : String) :
    PromptMessages :=
  { system := systemMessage policy_text format_instructions
    human := humanMessage application_data }

/-- The Prompt Builder over the (PolicyText, ApplicantRecord,
schema-description) triple: serialize the record with `json.dumps` and
substitute into the chat template, exactly as `process_loan_application`
lines 112-116 do. -/
def buildPrompt (policy_text : String) (application : LoanApplication)
    (format_instructions : String) : PromptMessages :=
  main_prompt_format_messages policy_text (json_dumps_application application)
    format_instructions

/-- `load_policy_text` (`loanagent.py` lines 76-91): one call to the PDF
loader (attempt index 0 of `fs` at the given path — no retry), joining the
page texts with a blank line; any raised load error is caught and the empty
string returned. -/
def load_policy_text (fs : String → Nat → Option (List String)) (pdf_path : String) : String :=
  match fs pdf_path 0 with
  | none => ""
  | some documents => String.intercalate "\n\n" documents

/-- The observable outcome of `process_loan_application`: either a returned
result dict, or an exception propagating to the caller. -/
inductive PipelineOutcome where
  | result (r : DecisionResult)
  | raised (msg : String)
deriving DecidableEq

/-- `process_loan_application` (`loanagent.py` lines 93-139), threading the
`application_data` dict through so the post-call state of the caller's
mapping is explicit (every statement of the body only reads it).  Note the
control flow of the source: the empty-policy check precedes validation;
`LoanApplication(**application_data)` sits OUTSIDE the `try` block, so a
`ValidationError` propagates (`PipelineOutcome.raised`); the `try` covers
prompt formatting, the service call and output parsing, and its `except`
returns the fallback dict with reasoning
`"Error processing application: " ++ str(e)`. -/
def process_loan_application
    (fs : String → Nat → Option (List String))
    (llm : PromptMessages → Except String String)
    (jsonDecode : String → Except String JValue)
    (format_instructions : String)
    (pdf_path : String)
    (application_data : AppData) : PipelineOutcome × AppData :=
  let policy_text := load_policy_text fs pdf_path
  if policy_text = "" then
    (PipelineOutcome.result
      { decision := "denied", reasoning := "Error loading policy document",
        riskLevel := "high", appliedRules := ["Error handling rule"] },
     application_data)
  else
    match LoanApplication.validate application_data with
    | Except.error e => (PipelineOutcome.raised e, application_data)
    | Except.ok application =>
      let formatted_prompt := buildPrompt policy_text application format_instructions
      match llm formatted_prompt with
      | Except.error e =>
          (PipelineOutcome.result
            { decision := "denied", reasoning := "Error processing application: " ++ e,
              riskLevel := "high", appliedRules := ["Error handling rule"] },
           application_data)
      | Except.ok content =>
        match output_parser_parse jsonDecode content with
        | Except.error e =>
            (PipelineOutcome.result
              { decision := "denied", reasoning := "Error processing application: " ++ e,
                riskLevel := "high", appliedRules := ["Error handling rule"] },
             application_data)
        | Except.ok decision =>
            (PipelineOutcome.result
              { decision := decision.decision, reasoning := decision.reasoning,
                riskLevel := decision.riskLevel, appliedRules := decision.appliedRules },
             application_data)

/-- The pipeline-instance configuration retained by `LoanAgent.__init__`
(the `ChatOpenAI` client is built from these with fixed `temperature=0`). -/
structure LoanAgent where
  api_key : String
  model_name : String
deriving DecidableEq

/-- Python truthiness of an optional string (`None` and `""` are falsy). -/
def optTruthy : Option String → Bool
  | none => false
  | some s => s ≠ ""

/-- Python `a or b` on optional strings. -/
def pyOrStr (a b : Option String) : Option String :=
  if optTruthy a then a else b

/-- `LoanAgent.__init__` (`loanagent.py` lines 34-45): take the constructor
argument or fall back to the `OPENAI_API_KEY` environment value; if the
combined value is falsy, raise `ValueError` (modelled as `Except.error`). -/
def LoanAgent.init (openai_api_key env_openai_api_key : Option String)
    (model_name : String) : Except String LoanAgent :=
  let api_key := pyOrStr openai_api_key env_openai_api_key
  if optTruthy api_key then
    Except.ok { api_key := api_key.getD "", model_name }
  else
    Except.error "OpenAI API key not provided. Set OPENAI_API_KEY environment variable or pass as parameter."

/-- The debt-to-income computation of `display_application_summary`
(`loan_runner.py` line 67). -/
def dti (monthlyDebt annualIncome : Rat) : Rat :=
  monthlyDebt * 12 / annualIncome * 100

/-- Does `needle` start `hay`? -/
def charsStartWith : List Char → List Char → Bool
  | [], _ => true
  | _ :: _, [] => false
  | a :: as, b :: bs => a == b && charsStartWith as bs

/-- Does `needle` occur contiguously in `hay`? -/
def charsContain (needle : List Char) : List Char → Bool
  | [] => charsStartWith needle []
  | b :: bs => charsStartWith needle (b :: bs) || charsContain needle bs

/-- Substring containment on strings. -/
def strContains (hay needle : String) : Bool :=
  charsContain needle.toList hay.toList

/-- The §8 scenario applicant: APP_USER_001 with the runner's default
values. -/
def app001 : LoanApplication :=
  { applicantId := "APP_USER_001", requestedAmount := 250000, annualIncome := 75000,
    monthlyDebt := 2000, creditScore := 700, employmentMonths := 24,
    isFirstTimeBuyer := false, isSelfEmployed := false }

/-- The raw applicant mapping for the §8 scenario, as `loan_runner.py`
lines 48-57 assemble it. -/
def scenarioData : AppData :=
  [("applicantId", PyVal.str "APP_USER_001"),
   ("requestedAmount", PyVal.float 250000),
   ("annualIncome", PyVal.float 75000),
   ("monthlyDebt", PyVal.float 2000),
   ("creditScore", PyVal.int 700),
   ("employmentMonths", PyVal.int 24),
   ("isFirstTimeBuyer", PyVal.bool false),
   ("isSelfEmployed", PyVal.bool false)]

/-- A filesystem in which every path reads as a one-page policy document. -/
def fsPolicy : String → Nat → Option (List String) :=
  fun _ _ => some ["Credit score at or above 680 is low risk. Low risk DTI ceiling 40%."]

/-- A filesystem in which every read raises (PDF missing or unreadable). -/
def fsMissing : String → Nat → Option (List String) :=
  fun _ _ => none

/-- A well-formed service response whose `decision` is the out-of-enum
value `"maybe"`. -/
def maybeResponseText : String :=
  "\x7b\"decision\": \"maybe\", \"reasoning\": \"unsure\", \"riskLevel\": \"medium\", \"appliedRules\": [\"Rule 1\"]\x7d"

/-- A well-formed service response with an in-enum decision. -/
def goodResponseText : String :=
  "\x7b\"decision\": \"approved\", \"reasoning\": \"meets policy\", \"riskLevel\": \"low\", \"appliedRules\": [\"DTI rule\"]\x7d"

/-- The JSON-decoding step of the output parser, concretely: `json.loads`
on the two fixed response documents above, a decode failure on anything
else. -/
def jsonDecodeStub : String → Except String JValue :=
  fun t =>
    if t = maybeResponseText then
      Except.ok (JValue.jobj
        [("decision", JValue.jstr "maybe"), ("reasoning", JValue.jstr "unsure"),
         ("riskLevel", JValue.jstr "medium"), ("appliedRules", JValue.jarr [JValue.jstr "Rule 1"])])
    else if t = goodResponseText then
      Except.ok (JValue.jobj
        [("decision", JValue.jstr "approved"), ("reasoning", JValue.jstr "meets policy"),
         ("riskLevel", JValue.jstr "low"), ("appliedRules", JValue.jarr [JValue.jstr "DTI rule"])])
    else Except.error "Invalid json output"

/-- A service stub answering every prompt with `maybeResponseText`. -/
def llmMaybe : PromptMessages → Except String String :=
  fun _ => Except.ok maybeResponseText

/-- A service stub answering every prompt with `goodResponseText`. -/
def llmGood : PromptMessages → Except String String :=
  fun _ => Except.ok goodResponseText

/-- A service stub whose every call raises. -/
def llmDown : PromptMessages → Except String String :=
  fun _ => Except.error "Connection error"

/-- Validating any list of strings rendered as JSON strings succeeds and
returns the same list. -/
theorem jStrList_map (k : String) (rules : List String) :
    jStrList k (rules.map JValue.jstr) = Except.ok rules := by
  induction rules with
  | nil => rfl
  | cons s rest ih => simp [jStrList, ih]

/-- Schema validation of a canonical decision object: any four string
payloads pass, whatever the value of `decision`. -/
theorem parseObj_canonical (d rsn lvl : String) (rules : List String) :
    LoanDecision.parseObj (JValue.jobj
      [("decision", JValue.jstr d), ("reasoning", JValue.jstr rsn),
       ("riskLevel", JValue.jstr lvl), ("appliedRules", JValue.jarr (rules.map JValue.jstr))])
      = Except.ok { decision := d, reasoning := rsn, riskLevel := lvl, appliedRules := rules } := by
  simp [LoanDecision.parseObj, jLookup, List.find?, jStr, jStrArr, jStrList_map, bind, Except.bind]

/-- C1, counterexample: the empty applicant mapping is rejected by the
Application Validator (pydantic: `applicantId` is a required field), yet
with a non-empty policy `process_loan_application` does NOT return a
Fallback DecisionResult — the validation fault propagates to the caller as
a raised exception, because `LoanApplication(**application_data)` sits
outside the `try` block (`loanagent.py` line 107). -/
theorem C1_counterexample :
    LoanApplication.validate [] = Except.error "applicantId: field required"
    ∧ (process_loan_application fsPolicy llmGood jsonDecodeStub "fi" "loan_policy.pdf" []).1
        = PipelineOutcome.raised "applicantId: field required" :=
  ⟨rfl, rfl⟩

/-- C1, amended: for every applicant mapping the Application Validator
rejects, given a non-empty policy text, `process_loan_application`
propagates the validation fault to the caller as a raised exception (it
does not return a Fallback DecisionResult); the Decision Service Client is
not invoked — the outcome is the same for every `llm`. -/
theorem C1_validation_error_propagates
    (fs : String → Nat → Option (List String))
    (llm : PromptMessages → Except String String)
    (jsonDecode : String → Except String JValue)
    (format_instructions pdf_path : String) (data : AppData) (e : String)
    (hpolicy : load_policy_text fs pdf_path ≠ "")
    (hval : LoanApplication.validate data = Except.error e) :
    (process_loan_application fs llm jsonDecode format_instructions pdf_path data).1
      = PipelineOutcome.raised e := by
  simp [process_loan_application, hpolicy, hval]

/-- C1, witness: a wrongly-typed `applicantId` propagates as a raised
`ValidationError`. -/
theorem C1_validation_error_propagates_witness :
    (process_loan_application fsPolicy llmGood jsonDecodeStub "fi" "loan_policy.pdf"
        [("applicantId", PyVal.int 3)]).1
      = PipelineOutcome.raised "applicantId: str type expected" :=
  C1_validation_error_propagates fsPolicy llmGood jsonDecodeStub "fi" "loan_policy.pdf"
    [("applicantId", PyVal.int 3)] "applicantId: str type expected" (by decide) rfl

/-- C2, counterexample: a well-formed service response whose `decision`
field is the out-of-enum string `"maybe"` is ACCEPTED by the Output
Parser/Validator (the `LoanDecision` model declares `decision : str` with
only a `Field(description=...)`, which is not a constraint), and the
pipeline surfaces `decision = "maybe"` to the caller — outside
{approved, denied}. -/
theorem C2_counterexample :
    output_parser_parse jsonDecodeStub maybeResponseText
        = Except.ok { decision := "maybe", reasoning := "unsure",
                      riskLevel := "medium", appliedRules := ["Rule 1"] }
    ∧ (process_loan_application fsPolicy llmMaybe jsonDecodeStub "fi" "loan_policy.pdf"
          scenarioData).1
        = PipelineOutcome.result { decision := "maybe", reasoning := "unsure",
                                   riskLevel := "medium", appliedRules := ["Rule 1"] }
    ∧ "maybe" ≠ "approved" ∧ "maybe" ≠ "denied" :=
  ⟨rfl, rfl, by decide, by decide⟩

/-- C2, amended: the Output Parser/Validator enforces field presence and
declared types but no enum membership: a response decoding to a decision
object whose `decision` is ANY string `d` parses successfully, and the
pipeline returns `d` unchanged — so the output `decision` field is not
restricted to {approved, denied}. -/
theorem C2_parser_accepts_any_decision_string
    (fs : String → Nat → Option (List String))
    (llm : PromptMessages → Except String String)
    (jsonDecode : String → Except String JValue)
    (format_instructions pdf_path : String) (data : AppData)
    (app : LoanApplication) (t d rsn lvl : String) (rules : List String)
    (hpolicy : load_policy_text fs pdf_path ≠ "")
    (hval : LoanApplication.validate data = Except.ok app)
    (hllm : llm (buildPrompt (load_policy_text fs pdf_path) app format_instructions)
      = Except.ok t)
    (hdec : jsonDecode t = Except.ok (JValue.jobj
      [("decision", JValue.jstr d), ("reasoning", JValue.jstr rsn),
       ("riskLevel", JValue.jstr lvl), ("appliedRules", JValue.jarr (rules.map JValue.jstr))])) :
    (process_loan_application fs llm jsonDecode format_instructions pdf_path data).1
      = PipelineOutcome.result { decision := d, reasoning := rsn,
                                 riskLevel := lvl, appliedRules := rules } := by
  have hparse : output_parser_parse jsonDecode t
      = Except.ok { decision := d, reasoning := rsn, riskLevel := lvl, appliedRules := rules } := by
    simp [output_parser_parse, hdec, parseObj_canonical, bind, Except.bind]
  simp [process_loan_application, hpolicy, hval, hllm, hparse]

/-- C2, witness: the amended theorem applied at `d = "maybe"`. -/
theorem C2_parser_accepts_any_decision_string_witness :
    (process_loan_application fsPolicy llmMaybe jsonDecodeStub "fi" "policy.pdf"
        scenarioData).1
      = PipelineOutcome.result { decision := "maybe", reasoning := "unsure",
                                 riskLevel := "medium", appliedRules := ["Rule 1"] } :=
  C2_parser_accepts_any_decision_string fsPolicy llmMaybe jsonDecodeStub "fi" "policy.pdf"
    scenarioData app001 maybeResponseText "maybe" "unsure" "medium" ["Rule 1"]
    (by decide) rfl rfl rfl

/-- C3, counterexample: when the Document Loader yields the empty string,
the pipeline does return a fixed Fallback payload without invoking the
service — but its `reasoning` is the literal `"Error loading policy
document"` (`loanagent.py` line 101), not the claimed `"policy document
unavailable"`. -/
theorem C3_counterexample :
    (process_loan_application fsMissing llmGood jsonDecodeStub "fi" "loan_policy.pdf"
        scenarioData).1
      = PipelineOutcome.result { decision := "denied", reasoning := "Error loading policy document",
                                 riskLevel := "high", appliedRules := ["Error handling rule"] }
    ∧ (process_loan_application fsMissing llmGood jsonDecodeStub "fi" "loan_policy.pdf"
          scenarioData).1
      ≠ PipelineOutcome.result { decision := "denied", reasoning := "policy document unavailable",
                                 riskLevel := "high", appliedRules := ["Error handling rule"] } :=
  ⟨rfl, by decide⟩

/-- C3, amended: for every applicant mapping (valid or not), if the
Document Loader returns the empty string then `process_loan_application`
returns exactly the fixed Fallback payload with `decision = "denied"`,
`riskLevel = "high"`, `reasoning = "Error loading policy document"`,
`appliedRules = ["Error handling rule"]`, for every service client `llm` —
so the Decision Service Client is not invoked. -/
theorem C3_empty_policy_fallback
    (fs : String → Nat → Option (List String))
    (llm : PromptMessages → Except String String)
    (jsonDecode : String → Except String JValue)
    (format_instructions pdf_path : String) (data : AppData)
    (h : load_policy_text fs pdf_path = "") :
    (process_loan_application fs llm jsonDecode format_instructions pdf_path data).1
      = PipelineOutcome.result { decision := "denied", reasoning := "Error loading policy document",
                                 riskLevel := "high", appliedRules := ["Error handling rule"] } := by
  simp [process_loan_application, h]

/-- C3, witness: the amended theorem applied to a missing PDF and an
(invalid) empty applicant mapping. -/
theorem C3_empty_policy_fallback_witness :
    (process_loan_application fsMissing llmGood jsonDecodeStub "fi" "p.pdf" []).1
      = PipelineOutcome.result { decision := "denied", reasoning := "Error loading policy document",
                                 riskLevel := "high", appliedRules := ["Error handling rule"] } :=
  C3_empty_policy_fallback fsMissing llmGood jsonDecodeStub "fi" "p.pdf" [] rfl

/-- C4, confirmed: every record `process_loan_application` returns is a
`DecisionResult`, a structure with exactly the four fields `decision`,
`reasoning`, `riskLevel`, `appliedRules` (both return sites of the source
build a dict with exactly these keys); and every returned record either is
the unaltered pass-through of a successfully parsed decision, or is a
fallback record with `decision = "denied"`, `riskLevel = "high"` and the
literal marker `"Error handling rule"` among its `appliedRules`. -/
theorem C4_result_shape
    (fs : String → Nat → Option (List String))
    (llm : PromptMessages → Except String String)
    (jsonDecode : String → Except String JValue)
    (format_instructions pdf_path : String) (data : AppData) (r : DecisionResult)
    (h : (process_loan_application fs llm jsonDecode format_instructions pdf_path data).1
      = PipelineOutcome.result r) :
    (r.decision = "denied" ∧ r.riskLevel = "high" ∧ "Error handling rule" ∈ r.appliedRules)
    ∨ (∃ app t d, LoanApplication.validate data = Except.ok app
        ∧ llm (buildPrompt (load_policy_text fs pdf_path) app format_instructions) = Except.ok t
        ∧ output_parser_parse jsonDecode t = Except.ok d
        ∧ r = { decision := d.decision, reasoning := d.reasoning,
                riskLevel := d.riskLevel, appliedRules := d.appliedRules }) := by
  unfold process_loan_application at h
  by_cases hpol : load_policy_text fs pdf_path = ""
  · simp [hpol] at h
    left
    simp [← h]
  · simp [hpol] at h
    cases hv : LoanApplication.validate data with
    | error e => rw [hv] at h; simp at h
    | ok app =>
      rw [hv] at h
      simp at h
      cases hl : llm (buildPrompt (load_policy_text fs pdf_path) app format_instructions) with
      | error e => rw [hl] at h; simp at h; left; simp [← h]
      | ok t =>
        rw [hl] at h; simp at h
        cases hp : output_parser_parse jsonDecode t with
        | error e => rw [hp] at h; simp at h; left; simp [← h]
        | ok d =>
          rw [hp] at h; simp at h
          right
          exact ⟨app, t, d, rfl, hl, hp, h.symm⟩

/-- C4, witness: the shape theorem applied to a run whose service call
raises, yielding the fallback record. -/
theorem C4_result_shape_witness :
    (({ decision := "denied", reasoning := "Error processing application: Connection error",
        riskLevel := "high", appliedRules := ["Error handling rule"] } : DecisionResult).decision
          = "denied"
      ∧ ({ decision := "denied", reasoning := "Error processing application: Connection error",
           riskLevel := "high", appliedRules := ["Error handling rule"] } : DecisionResult).riskLevel
          = "high"
      ∧ "Error handling rule" ∈
          ({ decision := "denied", reasoning := "Error processing application: Connection error",
             riskLevel := "high", appliedRules := ["Error handling rule"] } : DecisionResult).appliedRules)
    ∨ (∃ app t d, LoanApplication.validate scenarioData = Except.ok app
        ∧ llmDown (buildPrompt (load_policy_text fsPolicy "loan_policy.pdf") app "fi") = Except.ok t
        ∧ output_parser_parse jsonDecodeStub t = Except.ok d
        ∧ ({ decision := "denied", reasoning := "Error processing application: Connection error",
             riskLevel := "high", appliedRules := ["Error handling rule"] } : DecisionResult)
            = { decision := d.decision, reasoning := d.reasoning,
                riskLevel := d.riskLevel, appliedRules := d.appliedRules }) :=
  C4_result_shape fsPolicy llmDown jsonDecodeStub "fi" "loan_policy.pdf" scenarioData
    { decision := "denied", reasoning := "Error processing application: Connection error",
      riskLevel := "high", appliedRules := ["Error handling rule"] } rfl

set_option maxRecDepth 8192 in
/-- C5, counterexample: for the APP_USER_001 scenario applicant
(monthlyDebt = 2000, annualIncome = 75000), the Prompt Builder's rendered
application-data segment does NOT contain the literal substring `"32.0"`:
the prompt serializes the raw applicant record via `json.dumps` and never
computes the debt-to-income ratio. -/
theorem C5_counterexample :
    strContains (buildPrompt "Policy text" app001 "Schema").human "32.0" = false := by
  decide

set_option maxRecDepth 8192 in
/-- C5, amended: the debt-to-income computation of
`display_application_summary` (`loan_runner.py` line 67) yields exactly
32.0 for monthlyDebt = 2000 and annualIncome = 75000, but that value
appears only in the console summary: the Prompt Builder's rendered
application-data segment for the APP_USER_001 applicant contains no
substring `"32"` in any form — the DTI is left for the service to compute
from the serialized raw fields. -/
theorem C5_dti_console_only :
    dti 2000 75000 = 32
    ∧ strContains (buildPrompt "Policy text" app001 "Schema").human "32" = false := by
  constructor
  · norm_num [dti]
  · decide

/-- C6, confirmed: whenever the Output Parser/Validator succeeds (the
policy is non-empty, validation passes, the service call returns text `t`,
and `t` parses to decision `d`), `process_loan_application` returns `d`
field for field, unaltered — pass-through fidelity. -/
theorem C6_pass_through
    (fs : String → Nat → Option (List String))
    (llm : PromptMessages → Except String String)
    (jsonDecode : String → Except String JValue)
    (format_instructions pdf_path : String) (data : AppData)
    (app : LoanApplication) (t : String) (d : LoanDecision)
    (hpolicy : load_policy_text fs pdf_path ≠ "")
    (hval : LoanApplication.validate data = Except.ok app)
    (hllm : llm (buildPrompt (load_policy_text fs pdf_path) app format_instructions)
      = Except.ok t)
    (hparse : output_parser_parse jsonDecode t = Except.ok d) :
    (process_loan_application fs llm jsonDecode format_instructions pdf_path data).1
      = PipelineOutcome.result { decision := d.decision, reasoning := d.reasoning,
                                 riskLevel := d.riskLevel, appliedRules := d.appliedRules } := by
  simp [process_loan_application, hpolicy, hval, hllm, hparse]

/-- C6, witness: the §8 end-to-end scenario with a stub service returning
a fixed well-formed approval — the pipeline returns it unchanged. -/
theorem C6_pass_through_witness :
    (process_loan_application fsPolicy llmGood jsonDecodeStub "fi" "loan_policy.pdf"
        scenarioData).1
      = PipelineOutcome.result { decision := "approved", reasoning := "meets policy",
                                 riskLevel := "low", appliedRules := ["DTI rule"] } :=
  C6_pass_through fsPolicy llmGood jsonDecodeStub "fi" "loan_policy.pdf" scenarioData
    app001 goodResponseText
    { decision := "approved", reasoning := "meets policy",
      riskLevel := "low", appliedRules := ["DTI rule"] }
    (by decide) rfl rfl rfl

/-- C7, confirmed: the Prompt Builder is a pure function of the
(PolicyText, ApplicantRecord, schema-description) triple — two invocations
on identical inputs produce identical prompt message text. -/
theorem C7_prompt_builder_deterministic
    (p1 p2 : String) (a1 a2 : LoanApplication) (f1 f2 : String)
    (hp : p1 = p2) (ha : a1 = a2) (hf : f1 = f2) :
    buildPrompt p1 a1 f1 = buildPrompt p2 a2 f2 := by
  rw [hp, ha, hf]

/-- C7, witness: determinism at a concrete triple. -/
theorem C7_prompt_builder_deterministic_witness :
    buildPrompt "Policy text" app001 "Schema" = buildPrompt "Policy text" app001 "Schema" :=
  C7_prompt_builder_deterministic "Policy text" "Policy text" app001 app001
    "Schema" "Schema" rfl rfl rfl

/-- C8, confirmed: `load_policy_text` makes exactly one load attempt (its
result is determined by attempt 0 of the filesystem at the given path — no
retry), and a raised read or parse failure is caught and converted to the
empty string; the function is total, so no fault propagates. -/
theorem C8_loader_single_attempt_no_raise
    (fs fs' : String → Nat → Option (List String)) (pdf_path : String)
    (h : fs pdf_path 0 = fs' pdf_path 0) :
    load_policy_text fs pdf_path = load_policy_text fs' pdf_path
    ∧ (fs pdf_path 0 = none → load_policy_text fs pdf_path = "") := by
  constructor
  · unfold load_policy_text
    rw [h]
  · intro h0
    unfold load_policy_text
    rw [h0]

/-- C8, witness: the loader on an unreadable document. -/
theorem C8_loader_single_attempt_no_raise_witness :
    load_policy_text fsMissing "loan_policy.pdf" = load_policy_text fsMissing "loan_policy.pdf"
    ∧ (fsMissing "loan_policy.pdf" 0 = none → load_policy_text fsMissing "loan_policy.pdf" = "") :=
  C8_loader_single_attempt_no_raise fsMissing fsMissing "loan_policy.pdf" rfl

/-- C9, confirmed: with no credential supplied — constructor argument
`None` and no `OPENAI_API_KEY` in the environment — `LoanAgent.__init__`
raises `ValueError`; credential absence is a startup-level fatal condition,
not a pipeline Fallback. -/
theorem C9_missing_credential_fatal :
    LoanAgent.init none none "gpt-3.5-turbo"
      = Except.error "OpenAI API key not provided. Set OPENAI_API_KEY environment variable or pass as parameter." :=
  rfl

/-- C10, confirmed: `process_loan_application` never mutates its
`application_data` argument — the mapping after the call equals the mapping
before it, on every input and in every branch (the body only reads the
mapping, to construct the `LoanApplication` object and serialize it). -/
theorem C10_no_mutation
    (fs : String → Nat → Option (List String))
    (llm : PromptMessages → Except String String)
    (jsonDecode : String → Except String JValue)
    (format_instructions pdf_path : String) (data : AppData) :
    (process_loan_application fs llm jsonDecode format_instructions pdf_path data).2 = data := by
  unfold process_loan_application
  by_cases h : load_policy_text fs pdf_path = "" <;> simp [h]
  cases hv : LoanApplication.validate data <;> simp
  cases hl : llm _ <;> simp
  cases hp : output_parser_parse jsonDecode _ <;> simp
